import Mathlib

/-!
Shallow embedding of the ARC prototype retrieval pipeline
(`src/streamlit_app.py`) and its module-level credential resolution.

External collaborators (embedding service, graph database, generative
model) are modelled as function-valued fields of an environment record;
fallible calls return `Except String _`, with `.error` standing for a
raised exception. Similarity scores are modelled as rationals; Python
string slicing `s[:300]` is modelled character-wise.
-/

namespace Arc

/-- A row returned by the document-chunk vector query
(`RETURN node.text as text, score`). -/
structure ChunkRow where
  text : String
  score : ℚ
deriving DecidableEq

/-- A hit returned by the entity vector index (`YIELD node AS start, score`). -/
structure EntityHit where
  name : String
  score : ℚ
deriving DecidableEq

/-- A relationship stored in the graph: source node name, relationship
type, destination node name, and the `evidence` property. -/
structure Edge where
  src : String
  rel : String
  dst : String
  ev : String
deriving DecidableEq

/-- A row returned by the graph-expansion query
(`RETURN start.name as s, type(r) as rel, end.name as t, r.evidence as ev`). -/
structure TripleRow where
  s : String
  rel : String
  t : String
  ev : String
deriving DecidableEq

/-- The graph database: ranked answers of the two vector indexes for a
given query vector (an `.error` models a session/query exception), plus
the stored relationships. -/
structure Database where
  paperIndex : List ℚ → Except String (List ChunkRow)
  entityIndex : List ℚ → Except String (List EntityHit)
  edges : List Edge

/-- Response of `client.models.embed_content`: `resp.embeddings` is a list
of embeddings, each a vector of numbers (`.values`). -/
structure EmbedResponse where
  embeddings : List (List ℚ)

/-- The process environment of `run_hybrid_query`: the embedding client,
the graph-database driver and the generative model, each possibly raising. -/
structure Env where
  embed : String → Except String EmbedResponse
  db : Database
  generate : String → Except String String

/-- `db.index.vector.queryNodes('paper_vectors', 5, $vec)`: the index
returns at most the 5 nearest chunk rows. -/
def queryChunks (db : Database) (vec : List ℚ) : Except String (List ChunkRow) :=
  (db.paperIndex vec).map (fun rows => rows.take 5)

/-- `MATCH (start)-[r]-(end)` anchored at the node named `name`:
one row per incident relationship, in either direction, any type. -/
def expandEntity (edges : List Edge) (name : String) : List TripleRow :=
  edges.flatMap (fun e =>
    if e.src = name then [⟨e.src, e.rel, e.dst, e.ev⟩]
    else if e.dst = name then [⟨e.dst, e.rel, e.src, e.ev⟩]
    else [])

/-- The similarity threshold of the `WHERE score > 0.72` clause. -/
def threshold : ℚ := 72 / 100

/-- Body of the graph-expansion Cypher query: top-5 entity hits, filtered
to score strictly above the threshold, one-hop expansion, `LIMIT 15`. -/
def expandHits (edges : List Edge) (hits : List EntityHit) : List TripleRow :=
  ((((hits.take 5).filter (fun h => decide (threshold < h.score))).flatMap
    (fun h => expandEntity edges h.name)).take 15)

/-- `db.index.vector.queryNodes('entity_vectors', 5, $vec)` followed by
the filter, expansion and limit of the second session query. -/
def queryTriples (db : Database) (vec : List ℚ) : Except String (List TripleRow) :=
  (db.entityIndex vec).map (fun hits => expandHits db.edges hits)

/-- Python `s[:n]`: the first `n` characters of `s`. -/
def strTake (s : String) (n : Nat) : String := ⟨s.data.take n⟩

/-- One literature line: `f"- {rec['text'][:300]}..."`. -/
def chunkLine (c : ChunkRow) : String := "- " ++ strTake c.text 300 ++ "..."

/-- The literature-section lines: one per returned chunk row, in order. -/
def litLines (chunks : List ChunkRow) : List String := chunks.map chunkLine

/-- The dedup key: `f"{row['s']} -> {row['rel']} -> {row['t']}"`. -/
def tripleKey (r : TripleRow) : String := r.s ++ " -> " ++ r.rel ++ " -> " ++ r.t

/-- The fact-line loop: emit `f"FACT: {triple}"` for each row whose key is
not yet in `seen_triples`, accumulating seen keys. -/
def dedupFacts : List TripleRow → List String → List String
  | [], _ => []
  | r :: rest, seen =>
    if tripleKey r ∈ seen then dedupFacts rest seen
    else ("FACT: " ++ tripleKey r) :: dedupFacts rest (tripleKey r :: seen)

/-- The facts-section lines: the dedup loop started from the fresh, empty
`seen_triples = set()` of the current call. -/
def factLines (rows : List TripleRow) : List String := dedupFacts rows []

/-- The literature-section header literal. -/
def litHeader : String := "=== LITERATURE SNIPPETS ==="

/-- The facts-section header literal (with its leading newline). -/
def factsHeader : String := "\n=== KNOWLEDGE GRAPH FACTS ==="

/-- `"\n".join(...)`. -/
def joinLines : List String → String
  | [] => ""
  | [x] => x
  | x :: y :: rest => x ++ "\n" ++ joinLines (y :: rest)

/-- `full_context = "\n".join(evidence_dump)` where `evidence_dump` is the
literature header, the literature lines, the facts header, the fact lines. -/
def buildEvidence (chunks : List ChunkRow) (rows : List TripleRow) : String :=
  joinLines ((litHeader :: litLines chunks) ++ (factsHeader :: factLines rows))

/-- The rendered literature section on its own. -/
def litSection (chunks : List ChunkRow) : String :=
  joinLines (litHeader :: litLines chunks)

/-- The rendered facts section on its own. -/
def factsSection (rows : List TripleRow) : String :=
  joinLines (factsHeader :: factLines rows)

/-- The guarded embedding step: call the service, then take
`emb_resp.embeddings[0].values` (an out-of-range index also raises). -/
def getEmbedding (env : Env) (q : String) : Except String (List ℚ) :=
  match env.embed q with
  | .error e => .error e
  | .ok resp =>
    match resp.embeddings.head? with
    | some v => .ok v
    | none => .error "list index out of range"

/-- Leading constant piece of the synthesis prompt, up to the evidence. -/
def promptPre : String :=
  "\n    You are ARC (Analysis for Research Collaboration). \n    Answer the user\x27s question based strictly on the provided evidence.\n    \n    EVIDENCE:\n    "

/-- Constant piece of the synthesis prompt between evidence and question. -/
def promptMid : String := "\n    \n    QUESTION: "

/-- Trailing constant piece of the synthesis prompt. -/
def promptEnd : String := "\n    "

/-- `sys_prompt`: the fixed f-string template around the evidence bundle
and the original question. -/
def mkPrompt (full_context query_text : String) : String :=
  promptPre ++ full_context ++ promptMid ++ query_text ++ promptEnd

/-- `run_hybrid_query`: embed the query (local error recovery), run the
two session queries, assemble the evidence bundle, call the generative
model once, and return `(final.text, full_context)`. Uncaught exceptions
are `.error`. -/
def run_hybrid_query (env : Env) (query_text : String) :
    Except String (String × String) :=
  match getEmbedding env query_text with
  | .error e => .ok ("Embedding Error: " ++ e, "")
  | .ok q_vec =>
    match queryChunks env.db q_vec with
    | .error e => .error e
    | .ok chunk_res =>
      match queryTriples env.db q_vec with
      | .error e => .error e
      | .ok triple_res =>
        let full_context := buildEvidence chunk_res triple_res
        match env.generate (mkPrompt full_context query_text) with
        | .error e => .error e
        | .ok final => .ok (final, full_context)

/-- Two successive calls of the retriever with the same query text. -/
def runTwice (env : Env) (query_text : String) :
    Except String (String × String) × Except String (String × String) :=
  (run_hybrid_query env query_text, run_hybrid_query env query_text)

/-- Replace the evidence field of a triple row. -/
def setEv (f : TripleRow → String) (r : TripleRow) : TripleRow :=
  ⟨r.s, r.rel, r.t, f r⟩

/-- `st.secrets[k]`: a missing key raises `KeyError`, modelled as
`.error ()`. -/
def secretsGet (secrets : String → Option String) (k : String) :
    Except Unit String :=
  match secrets k with
  | some v => .ok v
  | none => .error ()

/-- `os.getenv(k) or st.secrets[k]`: Python `or` falls through on a
missing (`None`) or empty (falsy) environment value. -/
def resolveOne (env secrets : String → Option String) (k : String) :
    Except Unit String :=
  match env k with
  | some v => if v.isEmpty then secretsGet secrets k else .ok v
  | none => secretsGet secrets k

/-- The four resolved configuration values. -/
structure Credentials where
  api_key : String
  neo_uri : String
  neo_user : String
  neo_password : String
deriving DecidableEq

/-- The four environment-variable / secret names, in resolution order. -/
def credentialKeys : List String :=
  ["GOOGLE_API_KEY", "NEO4J_URI", "NEO4J_USER", "NEO4J_PASSWORD"]

/-- The module-level `try` block: resolve the four values in order; the
first `KeyError` aborts (`st.error` + `st.stop`, modelled as `.error ()`). -/
def resolveCredentials (env secrets : String → Option String) :
    Except Unit Credentials := do
  let api_key ← resolveOne env secrets "GOOGLE_API_KEY"
  let neo_uri ← resolveOne env secrets "NEO4J_URI"
  let neo_user ← resolveOne env secrets "NEO4J_USER"
  let neo_password ← resolveOne env secrets "NEO4J_PASSWORD"
  .ok ⟨api_key, neo_uri, neo_user, neo_password⟩

/-! ### Helper lemmas -/

lemma string_append_left_cancel {a b c : String} (h : a ++ b = a ++ c) : b = c := by
  apply String.ext
  have hd : (a ++ b).data = (a ++ c).data := by rw [h]
  simpa using hd

lemma mem_dedupFacts {l : String} :
    ∀ (rows : List TripleRow) (seen : List String), l ∈ dedupFacts rows seen →
      ∃ r, r ∈ rows ∧ l = "FACT: " ++ tripleKey r ∧ tripleKey r ∉ seen := by
  intro rows
  induction rows with
  | nil => intro seen h; simp [dedupFacts] at h
  | cons r rest ih =>
    intro seen h
    by_cases hk : tripleKey r ∈ seen
    · rw [dedupFacts, if_pos hk] at h
      obtain ⟨r', hr', he, hn⟩ := ih seen h
      exact ⟨r', List.mem_cons_of_mem _ hr', he, hn⟩
    · rw [dedupFacts, if_neg hk] at h
      rcases List.mem_cons.mp h with h1 | h2
      · exact ⟨r, List.mem_cons_self _ _, h1, hk⟩
      · obtain ⟨r', hr', he, hn⟩ := ih _ h2
        exact ⟨r', List.mem_cons_of_mem _ hr', he,
          fun hs => hn (List.mem_cons_of_mem _ hs)⟩

lemma dedupFacts_nodup : ∀ (rows : List TripleRow) (seen : List String),
    (dedupFacts rows seen).Nodup := by
  intro rows
  induction rows with
  | nil => intro seen; simp [dedupFacts]
  | cons r rest ih =>
    intro seen
    by_cases hk : tripleKey r ∈ seen
    · rw [dedupFacts, if_pos hk]; exact ih seen
    · rw [dedupFacts, if_neg hk]
      refine List.nodup_cons.mpr ⟨?_, ih _⟩
      intro hmem
      obtain ⟨r', _, he, hn⟩ := mem_dedupFacts _ _ hmem
      have hkk : tripleKey r = tripleKey r' := string_append_left_cancel he
      exact hn (hkk ▸ List.mem_cons_self _ _)

lemma dedupFacts_setEv (f : TripleRow → String) :
    ∀ (rows : List TripleRow) (seen : List String),
      dedupFacts (rows.map (setEv f)) seen = dedupFacts rows seen := by
  intro rows
  induction rows with
  | nil => intro seen; rfl
  | cons r rest ih =>
    intro seen
    have hkey : tripleKey (setEv f r) = tripleKey r := rfl
    by_cases hk : tripleKey r ∈ seen
    · simp only [List.map_cons]
      rw [dedupFacts, if_pos (hkey ▸ hk), dedupFacts, if_pos hk]
      exact ih seen
    · simp only [List.map_cons]
      rw [dedupFacts, if_neg (hkey ▸ hk), dedupFacts, if_neg hk, hkey]
      rw [ih]

/-! ### Claim theorems -/

/-- C1: the facts section built by `run_hybrid_query` has at most 15
candidate rows before deduplication (the `LIMIT 15` of the expansion
query); after deduplication no two fact lines carry the same
`subject -> relation -> object` composite; and the dedup key ignores the
evidence field: rewriting every row's evidence leaves the section
unchanged. -/
theorem facts_section_bounded_and_deduped (db : Database) (vec : List ℚ)
    (rows : List TripleRow) (h : queryTriples db vec = .ok rows) :
    rows.length ≤ 15 ∧ (factLines rows).Nodup ∧
    ∀ f : TripleRow → String, factLines (rows.map (setEv f)) = factLines rows := by
  refine ⟨?_, dedupFacts_nodup rows [], fun f => dedupFacts_setEv f rows []⟩
  unfold queryTriples at h
  cases he : db.entityIndex vec with
  | error e => rw [he] at h; simp [Except.map] at h
  | ok hits =>
    rw [he] at h
    simp only [Except.map] at h
    have : rows = expandHits db.edges hits := by
      cases h; rfl
    rw [this]
    exact List.length_take_le _ _

/-- C1 witness: a one-hit, one-edge database. -/
theorem facts_section_bounded_and_deduped_witness :
    ([⟨"EGFR", "INHIBITS", "X", "ev1"⟩] : List TripleRow).length ≤ 15 ∧
    (factLines [⟨"EGFR", "INHIBITS", "X", "ev1"⟩]).Nodup ∧
    ∀ f : TripleRow → String,
      factLines (([⟨"EGFR", "INHIBITS", "X", "ev1"⟩] : List TripleRow).map (setEv f)) =
        factLines [⟨"EGFR", "INHIBITS", "X", "ev1"⟩] :=
  facts_section_bounded_and_deduped
    ⟨fun _ => .ok [], fun _ => .ok [⟨"EGFR", 1⟩], [⟨"EGFR", "INHIBITS", "X", "ev1"⟩]⟩
    [] [⟨"EGFR", "INHIBITS", "X", "ev1"⟩]
    (by norm_num [queryTriples, expandHits, expandEntity, threshold, Except.map,
      List.filter, List.flatMap])

/-- C2: the literature section built by `run_hybrid_query` has at most 5
snippet lines; each is the bullet, the first 300 characters of the
chunk's text, and the trailing ellipsis marker; and no deduplication is
applied: every returned row yields its own line. -/
theorem lit_section_bounded_truncated (db : Database) (vec : List ℚ)
    (chunks : List ChunkRow) (h : queryChunks db vec = .ok chunks) :
    chunks.length ≤ 5 ∧
    (litLines chunks).length = chunks.length ∧
    ∀ l ∈ litLines chunks, ∃ c ∈ chunks,
      l = "- " ++ strTake c.text 300 ++ "..." ∧ (strTake c.text 300).length ≤ 300 := by
  refine ⟨?_, List.length_map _ _, ?_⟩
  · unfold queryChunks at h
    cases he : db.paperIndex vec with
    | error e => rw [he] at h; simp [Except.map] at h
    | ok rows =>
      rw [he] at h
      simp only [Except.map] at h
      have : chunks = rows.take 5 := by cases h; rfl
      rw [this]
      exact List.length_take_le _ _
  · intro l hl
    obtain ⟨c, hc, hlc⟩ := List.mem_map.mp hl
    refine ⟨c, hc, hlc.symm, ?_⟩
    show (c.text.data.take 300).length ≤ 300
    exact List.length_take_le _ _

/-- C2 witness: a database whose chunk index returns two rows, one with a
long text. -/
theorem lit_section_bounded_truncated_witness :
    ([⟨"short", 1⟩, ⟨"t", 1⟩] : List ChunkRow).length ≤ 5 ∧
    (litLines [⟨"short", 1⟩, ⟨"t", 1⟩]).length =
      ([⟨"short", 1⟩, ⟨"t", 1⟩] : List ChunkRow).length ∧
    ∀ l ∈ litLines [⟨"short", 1⟩, ⟨"t", 1⟩], ∃ c ∈ ([⟨"short", 1⟩, ⟨"t", 1⟩] : List ChunkRow),
      l = "- " ++ strTake c.text 300 ++ "..." ∧ (strTake c.text 300).length ≤ 300 :=
  lit_section_bounded_truncated
    ⟨fun _ => .ok [⟨"short", 1⟩, ⟨"t", 1⟩], fun _ => .ok [], []⟩ []
    [⟨"short", 1⟩, ⟨"t", 1⟩]
    (by simp [queryChunks, Except.map])

/-- C3: every row of the expansion-query result arises from an entity hit
whose similarity score is strictly above the 0.72 threshold; if every hit
scores at most 0.72 (the boundary score 0.72 included), the query yields
no fact row at all. -/
theorem facts_threshold_strict (edges : List Edge) (hits : List EntityHit) :
    (∀ row ∈ expandHits edges hits,
      ∃ h, h ∈ hits ∧ threshold < h.score ∧ row ∈ expandEntity edges h.name) ∧
    ((∀ h ∈ hits, h.score ≤ threshold) → expandHits edges hits = []) := by
  constructor
  · intro row hrow
    have h1 := List.mem_of_mem_take hrow
    obtain ⟨h, hh, hrow2⟩ := List.mem_flatMap.mp h1
    have h2 := List.mem_filter.mp hh
    exact ⟨h, List.mem_of_mem_take h2.1, of_decide_eq_true h2.2, hrow2⟩
  · intro hall
    unfold expandHits
    have : (hits.take 5).filter (fun h => decide (threshold < h.score)) = [] := by
      rw [List.filter_eq_nil_iff]
      intro h hh
      have := hall h (List.mem_of_mem_take hh)
      simpa using not_lt.mpr this
    rw [this]
    rfl

/-- C3 witness: a hit scoring exactly 0.72 contributes nothing even
though an incident edge exists. -/
theorem facts_threshold_strict_witness :
    expandHits [⟨"E", "R", "F", "v"⟩] [⟨"E", 72/100⟩] = [] :=
  (facts_threshold_strict [⟨"E", "R", "F", "v"⟩] [⟨"E", 72/100⟩]).2
    (by intro h hh; rw [List.mem_singleton] at hh; rw [hh]; exact le_of_eq rfl)

lemma joinLines_cons_append (a : String) (xs : List String) (b : String)
    (ys : List String) :
    joinLines ((a :: xs) ++ (b :: ys)) =
      joinLines (a :: xs) ++ "\n" ++ joinLines (b :: ys) := by
  induction xs generalizing a with
  | nil => rfl
  | cons x xs ih =>
    show joinLines (a :: x :: (xs ++ (b :: ys))) = _
    rw [joinLines]
    have : x :: (xs ++ (b :: ys)) = (x :: xs) ++ (b :: ys) := rfl
    rw [this, ih x, joinLines]
    simp [String.append_assoc]

lemma buildEvidence_split (chunks : List ChunkRow) (rows : List TripleRow) :
    buildEvidence chunks rows = litSection chunks ++ "\n" ++ factsSection rows := by
  unfold buildEvidence litSection factsSection
  exact joinLines_cons_append _ _ _ _

/-- C4: whenever the pipeline reaches synthesis, the evidence bundle it
returns (and hands to the synthesizer) is the literature section followed
by the facts section, in that order, each under its own header line,
however many lines either section has. -/
theorem evidence_bundle_order (env : Env) (q : String) (vec : List ℚ)
    (chunks : List ChunkRow) (rows : List TripleRow) (ans ev : String)
    (h1 : getEmbedding env q = .ok vec)
    (h2 : queryChunks env.db vec = .ok chunks)
    (h3 : queryTriples env.db vec = .ok rows)
    (h4 : run_hybrid_query env q = .ok (ans, ev)) :
    ev = joinLines (litHeader :: litLines chunks) ++ "\n" ++
      joinLines (factsHeader :: factLines rows) ∧
    ev = litSection chunks ++ "\n" ++ factsSection rows := by
  have hev : ev = buildEvidence chunks rows := by
    simp only [run_hybrid_query, h1, h2, h3] at h4
    cases hg : env.generate (mkPrompt (buildEvidence chunks rows) q) with
    | error e => rw [hg] at h4; cases h4
    | ok final => rw [hg] at h4; cases h4; rfl
  rw [hev, buildEvidence_split]
  exact ⟨rfl, rfl⟩

/-- C4 witness: an environment with empty index answers; both sections
are bare headers, still in literature-then-facts order. -/
theorem evidence_bundle_order_witness :
    ("=== LITERATURE SNIPPETS ===\n\n=== KNOWLEDGE GRAPH FACTS ===" : String) =
      joinLines (litHeader :: litLines []) ++ "\n" ++
        joinLines (factsHeader :: factLines []) ∧
    ("=== LITERATURE SNIPPETS ===\n\n=== KNOWLEDGE GRAPH FACTS ===" : String) =
      litSection [] ++ "\n" ++ factsSection [] :=
  evidence_bundle_order
    ⟨fun _ => .ok ⟨[[1]]⟩, ⟨fun _ => .ok [], fun _ => .ok [], []⟩, fun _ => .ok "a"⟩
    "q" [1] [] [] "a" "=== LITERATURE SNIPPETS ===\n\n=== KNOWLEDGE GRAPH FACTS ==="
    rfl (by simp [queryChunks, Except.map]) (by simp [queryTriples, expandHits, Except.map])
    (by simp [run_hybrid_query, getEmbedding, queryChunks, queryTriples, expandHits,
      Except.map, buildEvidence, litLines, factLines, dedupFacts, litHeader, factsHeader,
      joinLines])

lemma getEmbedding_congr {env1 env2 : Env} (q : String)
    (h : env1.embed = env2.embed) : getEmbedding env1 q = getEmbedding env2 q := by
  unfold getEmbedding
  rw [h]

/-- C5: if the embedding step raises, `run_hybrid_query` returns the
"Embedding Error" message with an empty evidence string, and the result
does not depend on the database or the generative model: any environment
with the same embedding client gives the identical result. -/
theorem embedding_error_short_circuit (env1 env2 : Env) (q e : String)
    (hembed : env1.embed = env2.embed)
    (herr : getEmbedding env1 q = .error e) :
    run_hybrid_query env1 q = .ok ("Embedding Error: " ++ e, "") ∧
    run_hybrid_query env1 q = run_hybrid_query env2 q := by
  have herr2 : getEmbedding env2 q = .error e := by
    rw [← getEmbedding_congr q hembed]; exact herr
  constructor
  · unfold run_hybrid_query
    rw [herr]
  · unfold run_hybrid_query
    rw [herr, herr2]

/-- C5 witness: a raising embedding client beside two different databases
and models; both environments return the same error answer. -/
theorem embedding_error_short_circuit_witness :
    run_hybrid_query
      ⟨fun _ => .error "boom", ⟨fun _ => .ok [⟨"c", 1⟩], fun _ => .ok [], []⟩,
        fun _ => .ok "a"⟩ "q" = .ok ("Embedding Error: " ++ "boom", "") ∧
    run_hybrid_query
      ⟨fun _ => .error "boom", ⟨fun _ => .ok [⟨"c", 1⟩], fun _ => .ok [], []⟩,
        fun _ => .ok "a"⟩ "q" =
    run_hybrid_query
      ⟨fun _ => .error "boom", ⟨fun _ => .error "db down", fun _ => .error "db down",
        [⟨"a", "b", "c", "d"⟩]⟩, fun _ => .error "llm down"⟩ "q" :=
  embedding_error_short_circuit
    ⟨fun _ => .error "boom", ⟨fun _ => .ok [⟨"c", 1⟩], fun _ => .ok [], []⟩,
      fun _ => .ok "a"⟩
    ⟨fun _ => .error "boom", ⟨fun _ => .error "db down", fun _ => .error "db down",
      [⟨"a", "b", "c", "d"⟩]⟩, fun _ => .error "llm down"⟩
    "q" "boom" rfl rfl

/-- C6: two calls of the retriever with the same query against the same
(deterministic, unchanged) environment return identical results, and the
facts deduplication of every call starts from the fresh empty seen-set:
no state carries over between calls. -/
theorem retrieval_idempotent (env : Env) (q : String) :
    (runTwice env q).1 = (runTwice env q).2 ∧
    ∀ rows : List TripleRow, factLines rows = dedupFacts rows [] :=
  ⟨rfl, fun _ => rfl⟩

/-- C7: when the pipeline reaches synthesis, the whole result of
`run_hybrid_query` is the response of one single generative-model request
paired, unmodified, with the evidence bundle; the prompt of that request
is the fixed template holding the evidence bundle verbatim and the
original question (and nothing of any chat history), and the template
opens with the persona directive. -/
theorem synthesizer_single_prompt (env : Env) (q : String) (vec : List ℚ)
    (chunks : List ChunkRow) (rows : List TripleRow)
    (h1 : getEmbedding env q = .ok vec)
    (h2 : queryChunks env.db vec = .ok chunks)
    (h3 : queryTriples env.db vec = .ok rows) :
    run_hybrid_query env q =
      (env.generate (mkPrompt (buildEvidence chunks rows) q)).map
        (fun t => (t, buildEvidence chunks rows)) ∧
    (∃ a b c, mkPrompt (buildEvidence chunks rows) q =
      a ++ (buildEvidence chunks rows ++ (b ++ (q ++ c)))) ∧
    (∃ a b, promptPre =
      a ++ ("You are ARC (Analysis for Research Collaboration)" ++ b)) := by
  refine ⟨?_, ⟨promptPre, promptMid, promptEnd, ?_⟩, ?_⟩
  · simp only [run_hybrid_query, h1, h2, h3]
    cases env.generate (mkPrompt (buildEvidence chunks rows) q) <;> rfl
  · simp [mkPrompt, String.append_assoc]
  · exact ⟨"\n    ",
      ". \n    Answer the user\x27s question based strictly on the provided evidence.\n    \n    EVIDENCE:\n    ",
      by rfl⟩

/-- Environment for the C7 witness: deterministic stubs for the three
collaborators, with empty index answers. -/
def wEnvC7 : Env :=
  ⟨fun _ => .ok ⟨[[1]]⟩, ⟨fun _ => .ok [], fun _ => .ok [], []⟩, fun _ => .ok "ans"⟩

/-- C7 witness: the stub environment, instantiated at query "q". -/
theorem synthesizer_single_prompt_witness :
    run_hybrid_query wEnvC7 "q" =
      (wEnvC7.generate (mkPrompt (buildEvidence [] []) "q")).map
        (fun t => (t, buildEvidence [] [])) ∧
    (∃ a b c, mkPrompt (buildEvidence [] []) "q" =
      a ++ (buildEvidence [] [] ++ (b ++ ("q" ++ c)))) ∧
    (∃ a b, promptPre =
      a ++ ("You are ARC (Analysis for Research Collaboration)" ++ b)) :=
  synthesizer_single_prompt wEnvC7 "q" [1] [] [] rfl
    (by simp [wEnvC7, queryChunks, Except.map])
    (by simp [wEnvC7, queryTriples, expandHits, Except.map])

/-- C8: exceptions inside the database session (either session query) and
exceptions of the generative-model call are not caught in
`run_hybrid_query`: each propagates to the caller as-is. -/
theorem session_and_model_errors_propagate (env : Env) (q : String)
    (vec : List ℚ) (e : String)
    (h1 : getEmbedding env q = .ok vec) :
    (queryChunks env.db vec = .error e → run_hybrid_query env q = .error e) ∧
    (∀ chunks, queryChunks env.db vec = .ok chunks →
      queryTriples env.db vec = .error e → run_hybrid_query env q = .error e) ∧
    (∀ chunks rows, queryChunks env.db vec = .ok chunks →
      queryTriples env.db vec = .ok rows →
      env.generate (mkPrompt (buildEvidence chunks rows) q) = .error e →
      run_hybrid_query env q = .error e) := by
  refine ⟨?_, ?_, ?_⟩
  · intro h2
    simp only [run_hybrid_query, h1, h2]
  · intro chunks h2 h3
    simp only [run_hybrid_query, h1, h2, h3]
  · intro chunks rows h2 h3 h4
    simp only [run_hybrid_query, h1, h2, h3, h4]

/-- Environment for the C8 witness: the chunk index raises. -/
def wEnvC8 : Env :=
  ⟨fun _ => .ok ⟨[[1]]⟩, ⟨fun _ => .error "db down", fun _ => .error "db down", []⟩,
    fun _ => .ok "a"⟩

/-- C8 witness: the database failure surfaces as the call's own error. -/
theorem session_and_model_errors_propagate_witness :
    run_hybrid_query wEnvC8 "q" = .error "db down" :=
  (session_and_model_errors_propagate wEnvC8 "q" [1] "db down" rfl).1 rfl

lemma resolveOne_env {envv s : String → Option String} {k v : String}
    (hv : envv k = some v) (hne : v.isEmpty = false) :
    resolveOne envv s k = .ok v := by
  unfold resolveOne
  rw [hv]
  simp [hne]

lemma resolveOne_missing {envv s : String → Option String} {k : String}
    (he : envv k = none ∨ envv k = some "") (hs : s k = none) :
    resolveOne envv s k = .error () := by
  rcases he with h | h <;> unfold resolveOne <;> rw [h] <;>
    simp [secretsGet, hs, String.isEmpty]

lemma bind_error_unit {α β : Type} (m : Except Unit α) (f : α → Except Unit β)
    (h : ∀ v, f v = .error ()) : (m >>= f) = .error () := by
  cases m with
  | error u => cases u; rfl
  | ok v => exact h v

lemma ok_bind {ε α β : Type} (v : α) (f : α → Except ε β) :
    ((.ok v : Except ε α) >>= f) = f v := rfl

lemma resolveCredentials_error_of (envv s : String → Option String) (k : String)
    (hk : k ∈ credentialKeys) (h : resolveOne envv s k = .error ()) :
    resolveCredentials envv s = .error () := by
  simp only [credentialKeys, List.mem_cons, List.mem_singleton] at hk
  rcases hk with rfl | rfl | rfl | hk
  · unfold resolveCredentials
    rw [h]
    rfl
  · unfold resolveCredentials
    apply bind_error_unit
    intro v
    rw [h]
    rfl
  · unfold resolveCredentials
    apply bind_error_unit
    intro v
    apply bind_error_unit
    intro v2
    rw [h]
    rfl
  · simp at hk
    subst hk
    unfold resolveCredentials
    apply bind_error_unit
    intro v
    apply bind_error_unit
    intro v2
    apply bind_error_unit
    intro v3
    rw [h]
    rfl

/-- C9: the resolver takes each of the four values from the environment
first: when all four are present and non-empty there, the result does not
consult (or depend on) the secret store and is exactly the four
environment values; and when any of the four is missing from both the
environment and the secret store, resolution aborts with the fatal error
before producing anything. -/
theorem credential_resolution_contract (envv s1 s2 : String → Option String) :
    ((∀ k ∈ credentialKeys, ∃ v, envv k = some v ∧ v.isEmpty = false) →
      resolveCredentials envv s1 = resolveCredentials envv s2 ∧
      ∃ c : Credentials, resolveCredentials envv s1 = .ok c ∧
        envv "GOOGLE_API_KEY" = some c.api_key ∧
        envv "NEO4J_URI" = some c.neo_uri ∧
        envv "NEO4J_USER" = some c.neo_user ∧
        envv "NEO4J_PASSWORD" = some c.neo_password) ∧
    ((∃ k ∈ credentialKeys, (envv k = none ∨ envv k = some "") ∧ s1 k = none) →
      resolveCredentials envv s1 = .error ()) := by
  constructor
  · intro h
    obtain ⟨v1, hv1, hn1⟩ := h "GOOGLE_API_KEY" (by simp [credentialKeys])
    obtain ⟨v2, hv2, hn2⟩ := h "NEO4J_URI" (by simp [credentialKeys])
    obtain ⟨v3, hv3, hn3⟩ := h "NEO4J_USER" (by simp [credentialKeys])
    obtain ⟨v4, hv4, hn4⟩ := h "NEO4J_PASSWORD" (by simp [credentialKeys])
    have key : ∀ s : String → Option String,
        resolveCredentials envv s = .ok ⟨v1, v2, v3, v4⟩ := by
      intro s
      unfold resolveCredentials
      rw [resolveOne_env hv1 hn1, ok_bind, resolveOne_env hv2 hn2, ok_bind,
        resolveOne_env hv3 hn3, ok_bind, resolveOne_env hv4 hn4, ok_bind]
    exact ⟨by rw [key s1, key s2], ⟨v1, v2, v3, v4⟩, key s1, hv1, hv2, hv3, hv4⟩
  · rintro ⟨k, hk, he, hs⟩
    exact resolveCredentials_error_of envv s1 k hk (resolveOne_missing he hs)

/-- An environment holding all four credentials. -/
def wEnvAll : String → Option String := fun _ => some "x"

/-- An environment lacking the database password. -/
def wEnvMiss : String → Option String :=
  fun k => if k = "NEO4J_PASSWORD" then none else some "x"

/-- An empty secret store. -/
def wSecrets0 : String → Option String := fun _ => none

/-- A fully populated secret store. -/
def wSecrets1 : String → Option String := fun _ => some "secret"

/-- C9 witness: a full environment resolves identically with an empty and
with a full secret store; removing the password from both halts. -/
theorem credential_resolution_contract_witness :
    (resolveCredentials wEnvAll wSecrets0 = resolveCredentials wEnvAll wSecrets1 ∧
      ∃ c : Credentials, resolveCredentials wEnvAll wSecrets0 = .ok c ∧
        wEnvAll "GOOGLE_API_KEY" = some c.api_key ∧
        wEnvAll "NEO4J_URI" = some c.neo_uri ∧
        wEnvAll "NEO4J_USER" = some c.neo_user ∧
        wEnvAll "NEO4J_PASSWORD" = some c.neo_password) ∧
    resolveCredentials wEnvMiss wSecrets0 = .error () :=
  ⟨(credential_resolution_contract wEnvAll wSecrets0 wSecrets1).1
      (fun k _ => ⟨"x", rfl, rfl⟩),
    (credential_resolution_contract wEnvMiss wSecrets0 wSecrets0).2
      ⟨"NEO4J_PASSWORD", by simp [credentialKeys], by simp [wEnvMiss], rfl⟩⟩

/-- C10: an environment variable set to the empty string is treated as
absent: the resolver falls back to the secret store for that key, and any
value it then yields comes from the secret store, never from the empty
environment value. -/
theorem empty_env_value_falls_back (envv secrets : String → Option String)
    (k : String) (h : envv k = some "") :
    resolveOne envv secrets k = secretsGet secrets k ∧
    ∀ v, resolveOne envv secrets k = .ok v → secrets k = some v := by
  have h1 : resolveOne envv secrets k = secretsGet secrets k := by
    unfold resolveOne
    rw [h]
    rfl
  refine ⟨h1, ?_⟩
  intro v hv
  rw [h1] at hv
  unfold secretsGet at hv
  cases hs : secrets k with
  | none => rw [hs] at hv; cases hv
  | some w => rw [hs] at hv; cases hv; rfl

/-- C10 witness: an all-empty environment beside a populated secret
store. -/
theorem empty_env_value_falls_back_witness :
    resolveOne (fun _ => some "") wSecrets1 "GOOGLE_API_KEY" =
      secretsGet wSecrets1 "GOOGLE_API_KEY" ∧
    ∀ v, resolveOne (fun _ => some "") wSecrets1 "GOOGLE_API_KEY" = .ok v →
      wSecrets1 "GOOGLE_API_KEY" = some v :=
  empty_env_value_falls_back (fun _ => some "") wSecrets1 "GOOGLE_API_KEY" rfl

end Arc
